import Mathlib

/-!
Shallow embedding of the Go CRUD item service (`src/main.go`, package `main`).

The service stores `Item` documents in a MongoDB collection and exposes five
fiber handlers: `getItems` (list with filter/sort/limit), `getItem` (fetch by
id), `createItem`, `updateItem` (partial update) and `deleteTodo`.

MongoDB's `ObjectID` is modelled as a `Nat` (the value decoded from the
24-character hex string); the Go zero `ObjectID` is `0`.  The collection is a
list of documents; the driver primitives `FindOne`, `InsertOne`, `UpdateOne`
and `DeleteOne` are modelled as pure functions on that list, reflecting the
driver's documented functional behaviour (connectivity failures are not
modelled).  Request bodies arrive as `Option Item`: `some` is a body that
`c.BodyParser` deserialized, `none` a body on which it failed (the handler
then returns the parse error, which fiber's default error handler surfaces,
modelled as `Response.appError`).
-/

set_option autoImplicit false

namespace GoRestApi

/-- The `Item` struct of `src/main.go` (fields in source order).  `id` models
`primitive.ObjectID`; the Go zero value of the struct is all-empty strings and
`id = 0`. -/
structure Item where
  id : Nat
  title : String
  description : String
  price : String
  createdAt : String
  category : String
deriving DecidableEq, Repr

/-- The `items` collection: the list of stored documents, keyed by their
`id` field (MongoDB keeps `_id` unique, see `insertOne`). -/
abbrev Store := List Item

/-- JSON response bodies produced by the handlers. -/
inductive RespBody where
  | item (it : Item)
  | items (l : List Item)
  | errMsg (msg : String)
  | msg (m : String)
deriving DecidableEq, Repr

/-- The outcome of a handler: `json s b` models `c.Status(s).JSON(b)` (fiber
defaults to status 200 for a plain `c.JSON`), `appError` models `return err`,
which fiber's default error handler turns into a non-400 error response. -/
inductive Response where
  | json (status : Nat) (body : RespBody)
  | appError (msg : String)
deriving DecidableEq, Repr

/-- Hex digit value accepted by Go's `encoding/hex` (both letter cases). -/
def hexDigitVal (c : Char) : Option Nat :=
  let n := c.toNat
  if 48 ≤ n ∧ n ≤ 57 then some (n - 48)
  else if 97 ≤ n ∧ n ≤ 102 then some (n - 87)
  else if 65 ≤ n ∧ n ≤ 70 then some (n - 55)
  else none

/-- `primitive.ObjectIDFromHex`: succeeds exactly on 24-character hex strings,
returning the decoded key; `none` models the parse error. -/
def ObjectIDFromHex (s : String) : Option Nat :=
  if s.data.length = 24 then
    s.data.foldl (fun acc c => acc.bind fun a => (hexDigitVal c).map fun v => 16 * a + v)
      (some 0)
  else none

/-- `strconv.Atoi`: optional sign, decimal digits only, result must fit in a
signed 64-bit int; `none` models the error return. -/
def Atoi (s : String) : Option Int :=
  let cs := s.data
  let signed : Bool × List Char :=
    match cs with
    | [] => (false, [])
    | c :: rest =>
      if c = '-' then (true, rest) else if c = '+' then (false, rest) else (false, cs)
  let ds := signed.2
  if ds.isEmpty then none
  else if ds.all (fun c => c.isDigit) then
    let n : Nat := ds.foldl (fun a c => 10 * a + (c.toNat - 48)) 0
    let v : Int := if signed.1 then -(n : Int) else (n : Int)
    if -(2 ^ 63) ≤ v ∧ v < 2 ^ 63 then some v else none
  else none

/-- Reduction into Go's int64 two's-complement range: the value congruent
modulo 2^64 that lies in [-2^63, 2^63).  Models the wrapping product
`int64(10 * pageInt)` of line 105. -/
def int64wrap (n : Int) : Int :=
  (n + 2 ^ 63) % 2 ^ 64 - 2 ^ 63

/-- The bson filter passed to `Find`: `bson.M\x7b\x7d` or
`bson.M\x7b"category": category\x7d`. -/
inductive Filter where
  | empty
  | categoryEq (category : String)
deriving DecidableEq, Repr

/-- The bson sort document `bson.D\x7b\x7bKey: sortBy, Value: dir\x7d\x7d`. -/
structure SortSpec where
  key : String
  direction : Int
deriving DecidableEq, Repr

/-- The query `getItems` hands to `Items.Find`: filter, sort and limit. -/
structure ListQuery where
  filter : Filter
  sort : SortSpec
  limit : Int
deriving DecidableEq, Repr

/-- `Items.FindOne(ctx, bson.M\x7b"_id": oid\x7d)` followed by `Decode`:
the first stored document whose key matches, `none` when decoding fails
because no document matched. -/
def findOne (s : Store) (oid : Nat) : Option Item :=
  s.find? (fun it => it.id == oid)

/-- The largest key in the store plus one: a key the store has never used.
Stands in for the driver's fresh `ObjectID` generation, whose only relevant
property is that the generated key is new and non-zero. -/
def freshId (s : Store) : Nat :=
  (s.map Item.id).foldr max 0 + 1

/-- `Items.InsertOne`: with `bson:"_id,omitempty"` a zero `id` is omitted and
the driver generates a fresh key; a non-zero `id` is sent as `_id`, which the
server accepts if unused and rejects (duplicate key error) otherwise.
Returns the updated store and the `InsertedID`. -/
def insertOne (s : Store) (doc : Item) : Except String (Store × Nat) :=
  if doc.id = 0 then
    let newId := freshId s
    Except.ok (s ++ [{ doc with id := newId }], newId)
  else if doc.id ∈ s.map Item.id then
    Except.error "duplicate key"
  else
    Except.ok (s ++ [doc], doc.id)

/-- `Items.UpdateOne` with filter `\x7b"_id": oid\x7d` and update
`\x7b"$set": \x7btitle, description, price, category\x7d\x7d`: rewrites those
four fields of the first matching document (leaving `_id` and `createdAt`
untouched) and is a no-op when no document matches. -/
def updateOne : Store → Nat → String → String → String → String → Store
  | [], _, _, _, _, _ => []
  | it :: rest, oid, t, d, p, c =>
    if it.id == oid then
      { it with title := t, description := d, price := p, category := c } :: rest
    else
      it :: updateOne rest oid t d p c

/-- `Items.DeleteOne` with filter `\x7b"_id": oid\x7d`: removes the first
matching document, a no-op when none matches (no error either way). -/
def deleteOne : Store → Nat → Store
  | [], _ => []
  | it :: rest, oid => if it.id == oid then rest else it :: deleteOne rest oid

/-- Whether a document matches the list filter. -/
def matchesFilter (f : Filter) (it : Item) : Bool :=
  match f with
  | Filter.empty => true
  | Filter.categoryEq c => it.category == c

/-- The string value of the named bson field of a document (sort key lookup);
fields absent from the schema compare as empty. -/
def fieldStr (it : Item) (key : String) : String :=
  if key = "title" then it.title
  else if key = "description" then it.description
  else if key = "price" then it.price
  else if key = "createdAt" then it.createdAt
  else if key = "category" then it.category
  else ""

/-- Insert into a list sorted by `le` (helper for the sort model). -/
def insertSorted (le : Item → Item → Bool) (x : Item) : List Item → List Item
  | [] => [x]
  | y :: ys => if le x y then x :: y :: ys else y :: insertSorted le x ys

/-- Insertion sort (model of the server's sort of the result set). -/
def sortList (le : Item → Item → Bool) : List Item → List Item
  | [] => []
  | x :: xs => insertSorted le x (sortList le xs)

/-- Comparison induced by the sort specification: ascending on the key field
for direction `1`, descending for `-1`. -/
def sortLe (key : String) (dir : Int) (a b : Item) : Bool :=
  if dir = -1 then decide (fieldStr b key ≤ fieldStr a key)
  else decide (fieldStr a key ≤ fieldStr b key)

/-- `Items.Find` with a filter, sort and limit, plus the handler's cursor
loop: the matching documents in sort order, truncated to the limit
(limit `0` means no limit, a negative limit acts as its absolute value). -/
def FindModel (s : Store) (f : Filter) (srt : SortSpec) (limit : Int) : List Item :=
  let matched := s.filter (matchesFilter f)
  let sorted := sortList (sortLe srt.key srt.direction) matched
  if limit = 0 then sorted else sorted.take limit.natAbs

/-- Lines 74-105 of `getItems`: defaulting of `page`, `sortBy` and
`sortOrder`, the category filter, the sort document, and the
`strconv.Atoi` page check with `limit := int64(10 * pageInt)`, whose
product wraps in int64 arithmetic. -/
def getItemsQuery (pageQ sortByQ sortOrderQ categoryQ : String) :
    Except String ListQuery :=
  let page := if pageQ = "" then "1" else pageQ
  let sortBy := if sortByQ = "" then "createdAt" else sortByQ
  let sortOrder := if sortOrderQ = "" then "desc" else sortOrderQ
  let category := categoryQ
  let filter := if category ≠ "" then Filter.categoryEq category else Filter.empty
  let sort := if sortOrder = "desc" then SortSpec.mk sortBy (-1) else SortSpec.mk sortBy 1
  match Atoi page with
  | none => Except.error "Invalid page number"
  | some pageInt => Except.ok ⟨filter, sort, int64wrap (10 * pageInt)⟩

/-- Handler `getItems` (GET `/api/items`): builds the query from the four
query parameters and returns the found documents, or 400 on a bad page. -/
def getItems (store : Store) (pageQ sortByQ sortOrderQ categoryQ : String) :
    Response × Store :=
  match getItemsQuery pageQ sortByQ sortOrderQ categoryQ with
  | Except.error e => (Response.json 400 (RespBody.errMsg e), store)
  | Except.ok q =>
    (Response.json 200 (RespBody.items (FindModel store q.filter q.sort q.limit)), store)

/-- Handler `getItem` (GET `api/items/:id`): 400 on a malformed id, 500 when
the fetch/decode fails (no such document), otherwise the document. -/
def getItem (store : Store) (id : String) : Response × Store :=
  match ObjectIDFromHex id with
  | none => (Response.json 400 (RespBody.errMsg "Invalid ID"), store)
  | some objectID =>
    match findOne store objectID with
    | none => (Response.json 500 (RespBody.errMsg "Error fetching item"), store)
    | some item => (Response.json 200 (RespBody.item item), store)

/-- Handler `createItem` (POST `api/items`): body parse, required-field
checks in source order, `CreatedAt` stamp (`now` models
`time.Now().GoString()`), insert, and the 201 response carrying the
`InsertedID`. -/
def createItem (store : Store) (body : Option Item) (now : String) :
    Response × Store :=
  match body with
  | none => (Response.appError "body parse error", store)
  | some item =>
    if item.title = "" then
      (Response.json 400 (RespBody.errMsg "Title is required"), store)
    else if item.description = "" then
      (Response.json 400 (RespBody.errMsg "Description is required"), store)
    else if item.price = "" then
      (Response.json 400 (RespBody.errMsg "Price is required"), store)
    else if item.category = "" then
      (Response.json 400 (RespBody.errMsg "Category is required"), store)
    else
      let stamped := { item with createdAt := now }
      match insertOne store stamped with
      | Except.error e => (Response.appError e, store)
      | Except.ok (store2, newId) =>
        (Response.json 201 (RespBody.item { stamped with id := newId }), store2)

/-- The error message of the first required field missing from a creation
payload, in the source's check order: title, description, price, category. -/
def firstMissingMsg (item : Item) : String :=
  if item.title = "" then "Title is required"
  else if item.description = "" then "Description is required"
  else if item.price = "" then "Price is required"
  else "Category is required"

/-- Lines 204-215 of `updateItem`: each non-empty field of the request body
overwrites the corresponding field of the fetched document. -/
def mergeItem (item newItem : Item) : Item :=
  let i1 := if newItem.title ≠ "" then { item with title := newItem.title } else item
  let i2 := if newItem.description ≠ "" then { i1 with description := newItem.description } else i1
  let i3 := if newItem.price ≠ "" then { i2 with price := newItem.price } else i2
  let i4 := if newItem.category ≠ "" then { i3 with category := newItem.category } else i3
  i4

/-- Handler `updateItem` (PATCH `api/items/:id`).  Mirrors the source's
control flow: the id is parsed first but its error is only checked after
`BodyParser` (whose own error is returned as-is), then the document is
fetched (500 on failure), then the all-fields-empty body is rejected with
400, then the merged fields are persisted with `$set`. -/
def updateItem (store : Store) (id : String) (body : Option Item) :
    Response × Store :=
  let parsed := ObjectIDFromHex id
  match body with
  | none => (Response.appError "body parse error", store)
  | some newItem =>
    match parsed with
    | none => (Response.json 400 (RespBody.errMsg "Invalid ID"), store)
    | some objectID =>
      match findOne store objectID with
      | none => (Response.json 500 (RespBody.errMsg "Error fetching item"), store)
      | some item0 =>
        if newItem.title = "" ∧ newItem.description = "" ∧ newItem.price = ""
            ∧ newItem.category = "" then
          (Response.json 400
            (RespBody.errMsg "Title, Description, Price or Category is required"), store)
        else
          let item := mergeItem item0 newItem
          (Response.json 200 (RespBody.msg "success"),
            updateOne store objectID item.title item.description item.price item.category)

/-- Handler `deleteTodo` (DELETE `api/items/:id`): 400 on a malformed id,
otherwise delete-by-id (no existence check) and a success message. -/
def deleteTodo (store : Store) (id : String) : Response × Store :=
  match ObjectIDFromHex id with
  | none => (Response.json 400 (RespBody.errMsg "Invalid ID"), store)
  | some objectID =>
    (Response.json 200 (RespBody.msg "success"), deleteOne store objectID)

end GoRestApi

namespace GoRestApi

/-- Unfolding of `mergeItem` into a single record update. -/
theorem mergeItem_eq (a b : Item) :
    mergeItem a b =
      { a with
        title := if b.title = "" then a.title else b.title,
        description := if b.description = "" then a.description else b.description,
        price := if b.price = "" then a.price else b.price,
        category := if b.category = "" then a.category else b.category } := by
  simp only [mergeItem, ne_eq, ite_not]
  split_ifs <;> rfl

/-- Looking up the updated key after `updateOne` yields the stored document
with the four fields rewritten. -/
theorem findOne_updateOne (s : Store) (oid : Nat) (t d p c : String) :
    findOne (updateOne s oid t d p c) oid =
      (findOne s oid).map
        (fun it => { it with title := t, description := d, price := p, category := c }) := by
  induction s with
  | nil => rfl
  | cons it rest ih =>
    by_cases h : it.id = oid
    · simp [findOne, updateOne, List.find?, h]
    · have hb : (it.id == oid) = false := by simp [h]
      simp only [updateOne, hb, if_false, Bool.false_eq_true]
      simp only [findOne, List.find?, hb] at ih ⊢
      exact ih

/-- A key that no stored document carries is not found. -/
theorem findOne_eq_none (s : Store) (oid : Nat) (h : oid ∉ s.map Item.id) :
    findOne s oid = none := by
  induction s with
  | nil => rfl
  | cons it rest ih =>
    simp only [List.map_cons, List.mem_cons, not_or] at h
    have hne : ¬ it.id = oid := fun hc => h.1 hc.symm
    have hb : (it.id == oid) = false := by simp [hne]
    simp only [findOne, List.find?, hb]
    exact ih h.2

/-- With unique keys, a deleted key is no longer found. -/
theorem findOne_deleteOne (s : Store) (oid : Nat) (h : (s.map Item.id).Nodup) :
    findOne (deleteOne s oid) oid = none := by
  induction s with
  | nil => rfl
  | cons it rest ih =>
    simp only [List.map_cons, List.nodup_cons] at h
    by_cases heq : it.id = oid
    · simp only [deleteOne, heq, beq_self_eq_true, if_true]
      exact findOne_eq_none rest oid (heq ▸ h.1)
    · have hb : (it.id == oid) = false := by simp [heq]
      simp only [deleteOne, hb, Bool.false_eq_true, if_false]
      simp only [findOne, List.find?, hb]
      exact ih h.2

/-- Every member of a list of naturals is bounded by its max-fold. -/
theorem le_foldr_max (l : List Nat) (x : Nat) (h : x ∈ l) : x ≤ l.foldr max 0 := by
  induction l with
  | nil => cases h
  | cons y ys ih =>
    rcases List.mem_cons.mp h with rfl | hmem
    · exact le_max_left _ _
    · exact le_trans (ih hmem) (le_max_right _ _)

/-- The generated key is genuinely new. -/
theorem freshId_not_mem (s : Store) : freshId s ∉ s.map Item.id := by
  intro hmem
  have := le_foldr_max (s.map Item.id) (freshId s) hmem
  simp only [freshId] at this
  omega

/-- The generated key is never the zero `ObjectID`. -/
theorem freshId_ne_zero (s : Store) : freshId s ≠ 0 := by
  simp [freshId]

/-- A value already inside the int64 range is unchanged by the wrap. -/
theorem int64wrap_eq_self (n : Int) (h1 : -(2 ^ 63) ≤ n) (h2 : n < 2 ^ 63) :
    int64wrap n = n := by
  have e63 : (2 : Int) ^ 63 = 9223372036854775808 := by norm_num
  have e64 : (2 : Int) ^ 64 = 18446744073709551616 := by norm_num
  unfold int64wrap
  rw [e63, e64]
  rw [e63] at h1 h2
  omega

/-- When the (defaulted) page fails to parse, the list query is the
"Invalid page number" error. -/
theorem getItemsQuery_none (pageQ sortByQ sortOrderQ categoryQ : String)
    (h : Atoi (if pageQ = "" then "1" else pageQ) = none) :
    getItemsQuery pageQ sortByQ sortOrderQ categoryQ = Except.error "Invalid page number" := by
  simp only [getItemsQuery, h]

/-- When the (defaulted) page parses to `p`, the list query is the claimed
filter, the claimed sort and the limit `10 * p`. -/
theorem getItemsQuery_some (pageQ sortByQ sortOrderQ categoryQ : String) (p : Int)
    (h : Atoi (if pageQ = "" then "1" else pageQ) = some p) :
    getItemsQuery pageQ sortByQ sortOrderQ categoryQ =
      Except.ok
        ⟨(if categoryQ = "" then Filter.empty else Filter.categoryEq categoryQ),
         ⟨(if sortByQ = "" then "createdAt" else sortByQ),
          (if (if sortOrderQ = "" then "desc" else sortOrderQ) = "desc" then -1 else 1)⟩,
         int64wrap (10 * p)⟩ := by
  simp only [getItemsQuery, h, ne_eq, ite_not]
  split_ifs <;> rfl

end GoRestApi

namespace GoRestApi

/-- Claim C1, counterexample: the page "922337203685477581" is accepted by
`strconv.Atoi`, but `int64(10 * pageInt)` wraps, so the query carries the
limit -9223372036854775806 and not the product 10 times the page
(9223372036854775810): the claimed "result limit equals 10 x page" fails. -/
theorem C1_counterexample :
    Atoi "922337203685477581" = some 922337203685477581 ∧
    getItemsQuery "922337203685477581" "" "" "" =
      Except.ok ⟨Filter.empty, ⟨"createdAt", -1⟩, -9223372036854775806⟩ ∧
    (-9223372036854775806 : Int) ≠ 10 * 922337203685477581 := by
  refine ⟨by decide, by rfl, by decide⟩

/-- Claim C1, amended: for every List request whose (defaulted) page parses
to p, the filter is empty unless `category` is supplied (then an equality
match on the category field), the sort specification pairs the (defaulted)
sortBy field with direction -1 when the (defaulted) sortOrder is "desc" and
+1 for every other value, and the result limit is the int64-wrapped product
`int64wrap (10 * p)` — equal to 10 times the page whenever that product fits
in the int64 range. -/
theorem C1_amended_list_query (pageQ sortByQ sortOrderQ categoryQ : String) (p : Int)
    (hp : Atoi (if pageQ = "" then "1" else pageQ) = some p) :
    getItemsQuery pageQ sortByQ sortOrderQ categoryQ =
      Except.ok
        ⟨(if categoryQ = "" then Filter.empty else Filter.categoryEq categoryQ),
         ⟨(if sortByQ = "" then "createdAt" else sortByQ),
          (if (if sortOrderQ = "" then "desc" else sortOrderQ) = "desc" then -1 else 1)⟩,
         int64wrap (10 * p)⟩ ∧
    (-(2 ^ 63) ≤ 10 * p → 10 * p < 2 ^ 63 → int64wrap (10 * p) = 10 * p) :=
  ⟨getItemsQuery_some pageQ sortByQ sortOrderQ categoryQ p hp,
   int64wrap_eq_self (10 * p)⟩

theorem C1_amended_witness :
    getItemsQuery "2" "" "asc" "x" =
      Except.ok ⟨Filter.categoryEq "x", ⟨"createdAt", 1⟩, 20⟩ :=
  (C1_amended_list_query "2" "" "asc" "x" 2 (by decide)).1

/-- Claim C2: a Partial-Update on an existing document persists exactly the
merge: each of title, description, price, category that is non-empty in the
body overwrites the stored field, and every other field of the document
(the unsupplied ones, the creation timestamp and the identifier) keeps its
stored value; the handler answers 200 "success". -/
theorem C2_partial_update_frame (store : Store) (id : String) (oid : Nat)
    (newItem item0 : Item)
    (hid : ObjectIDFromHex id = some oid)
    (hfind : findOne store oid = some item0)
    (hbody : ¬(newItem.title = "" ∧ newItem.description = "" ∧ newItem.price = ""
      ∧ newItem.category = "")) :
    (updateItem store id (some newItem)).1 = Response.json 200 (RespBody.msg "success") ∧
    findOne (updateItem store id (some newItem)).2 oid =
      some { item0 with
             title := if newItem.title = "" then item0.title else newItem.title,
             description := if newItem.description = "" then item0.description
               else newItem.description,
             price := if newItem.price = "" then item0.price else newItem.price,
             category := if newItem.category = "" then item0.category
               else newItem.category } := by
  simp only [updateItem, hid, hfind, if_neg hbody]
  refine ⟨trivial, ?_⟩
  rw [findOne_updateOne, hfind, mergeItem_eq]
  rfl

theorem C2_witness :
    (updateItem [⟨1, "A", "B", "1", "T0", "C"⟩] "000000000000000000000001"
        (some ⟨0, "", "", "2", "", ""⟩)).1 = Response.json 200 (RespBody.msg "success") ∧
    findOne (updateItem [⟨1, "A", "B", "1", "T0", "C"⟩] "000000000000000000000001"
        (some ⟨0, "", "", "2", "", ""⟩)).2 1 =
      some ⟨1, "A", "B", "2", "T0", "C"⟩ := by
  have h := C2_partial_update_frame [⟨1, "A", "B", "1", "T0", "C"⟩]
    "000000000000000000000001" 1 ⟨0, "", "", "2", "", ""⟩ ⟨1, "A", "B", "1", "T0", "C"⟩
    (by decide) (by decide) (by decide)
  simpa using h

/-- Claim C3: for every identifier string that does not parse as an
`ObjectID`, Get-One, Partial-Update (with a deserializable body) and Delete
all answer 400 "Invalid ID" and leave the store untouched. -/
theorem C3_malformed_id (store : Store) (id : String) (newItem : Item)
    (hid : ObjectIDFromHex id = none) :
    getItem store id = (Response.json 400 (RespBody.errMsg "Invalid ID"), store) ∧
    updateItem store id (some newItem) =
      (Response.json 400 (RespBody.errMsg "Invalid ID"), store) ∧
    deleteTodo store id = (Response.json 400 (RespBody.errMsg "Invalid ID"), store) := by
  refine ⟨?_, ?_, ?_⟩ <;> simp [getItem, updateItem, deleteTodo, hid]

theorem C3_witness :
    getItem [] "zzz" = (Response.json 400 (RespBody.errMsg "Invalid ID"), []) ∧
    updateItem [] "zzz" (some ⟨0, "x", "", "", "", ""⟩) =
      (Response.json 400 (RespBody.errMsg "Invalid ID"), []) ∧
    deleteTodo [] "zzz" = (Response.json 400 (RespBody.errMsg "Invalid ID"), []) :=
  C3_malformed_id [] "zzz" ⟨0, "x", "", "", "", ""⟩ (by decide)

/-- Claim C4, counterexample: "-1" parses as an integer that is not positive,
yet the List handler does not fail with 400 — it answers 200, refuting the
claimed equivalence between failure and "page is not a parseable positive
integer". -/
theorem C4_counterexample :
    Atoi "-1" = some (-1) ∧ ¬ (0 : Int) < -1 ∧
    (getItems [] "-1" "" "" "").1 = Response.json 200 (RespBody.items []) := by
  refine ⟨by decide, by decide, ?_⟩
  rfl

/-- Claim C4, amended: the List handler fails with 400 "Invalid page number"
exactly when the (defaulted) `page` does not parse as a signed decimal
integer (`strconv.Atoi`); for every parsed integer `n`, positive or not, it
succeeds with the result limit `int64wrap (10 * n)`, the int64-wrapped
product. -/
theorem C4_amended_page_parse (store : Store) (pageQ sortByQ sortOrderQ categoryQ : String) :
    ((getItems store pageQ sortByQ sortOrderQ categoryQ).1 =
        Response.json 400 (RespBody.errMsg "Invalid page number") ↔
      Atoi (if pageQ = "" then "1" else pageQ) = none) ∧
    (∀ n : Int, Atoi (if pageQ = "" then "1" else pageQ) = some n →
      getItems store pageQ sortByQ sortOrderQ categoryQ =
        (Response.json 200 (RespBody.items (FindModel store
          (if categoryQ = "" then Filter.empty else Filter.categoryEq categoryQ)
          ⟨(if sortByQ = "" then "createdAt" else sortByQ),
           (if (if sortOrderQ = "" then "desc" else sortOrderQ) = "desc" then -1 else 1)⟩
          (int64wrap (10 * n)))), store)) := by
  constructor
  · constructor
    · intro hresp
      cases h : Atoi (if pageQ = "" then "1" else pageQ) with
      | none => rfl
      | some n =>
        simp [getItems, getItemsQuery_some pageQ sortByQ sortOrderQ categoryQ n h] at hresp
    · intro h
      simp only [getItems, getItemsQuery_none pageQ sortByQ sortOrderQ categoryQ h]
  · intro n h
    simp only [getItems, getItemsQuery_some pageQ sortByQ sortOrderQ categoryQ n h]

theorem C4_amended_witness :
    (getItems [] "abc" "" "" "").1 =
      Response.json 400 (RespBody.errMsg "Invalid page number") ∧
    getItems [] "3" "" "" "" =
      (Response.json 200 (RespBody.items
        (FindModel [] Filter.empty ⟨"createdAt", -1⟩ (int64wrap (10 * 3)))), []) ∧
    int64wrap (10 * 3) = 30 := by
  refine ⟨((C4_amended_page_parse [] "abc" "" "" "").1).mpr (by decide), ?_, by decide⟩
  have h := (C4_amended_page_parse [] "3" "" "" "").2 3 (by decide)
  simpa using h

end GoRestApi

namespace GoRestApi

/-- Claim C5: a creation payload with at least one required field empty is
rejected with 400 and the single error message of the first missing field in
the order title, description, price, category, and nothing is inserted. -/
theorem C5_create_validation (store : Store) (item : Item) (now : String)
    (hmiss : item.title = "" ∨ item.description = "" ∨ item.price = ""
      ∨ item.category = "") :
    createItem store (some item) now =
      (Response.json 400 (RespBody.errMsg (firstMissingMsg item)), store) := by
  unfold createItem firstMissingMsg
  split_ifs <;> simp_all

theorem C5_witness :
    createItem [] (some ⟨0, "A", "", "1", "", "C"⟩) "T" =
      (Response.json 400 (RespBody.errMsg "Description is required"), []) :=
  C5_create_validation [] ⟨0, "A", "", "1", "", "C"⟩ "T" (by decide)

/-- Claim C6, counterexample: a Create body carrying the non-zero identifier
5 produces a document whose identifier is exactly that client-supplied value,
refuting "the identifier of the created document is never the client-supplied
value". -/
theorem C6_counterexample :
    (createItem [] (some ⟨5, "A", "B", "1", "", "C"⟩) "T").1 =
      Response.json 201 (RespBody.item ⟨5, "A", "B", "1", "T", "C"⟩) ∧ (5 : Nat) ≠ 0 :=
  ⟨rfl, by decide⟩

/-- Claim C6, amended: a client-supplied identifier in the Create body is
not ignored: a valid payload carrying an unused non-zero identifier is
created under exactly that identifier; the store assigns a fresh identifier
only when the payload's identifier is the zero value (absent field). -/
theorem C6_amended_client_id (store : Store) (item : Item) (now : String)
    (ht : item.title ≠ "") (hd : item.description ≠ "") (hp : item.price ≠ "")
    (hc : item.category ≠ "") :
    (item.id ≠ 0 → item.id ∉ store.map Item.id →
      (createItem store (some item) now).1 =
        Response.json 201 (RespBody.item { item with createdAt := now })) ∧
    (item.id = 0 →
      (createItem store (some item) now).1 =
        Response.json 201
          (RespBody.item { item with createdAt := now, id := freshId store })) := by
  constructor
  · intro hz hm
    simp [createItem, insertOne, ht, hd, hp, hc, hz, hm]
  · intro hz
    simp [createItem, insertOne, ht, hd, hp, hc, hz]

theorem C6_amended_witness :
    (createItem [⟨3, "X", "Y", "0", "S", "Z"⟩] (some ⟨0, "A", "B", "1", "", "C"⟩) "T").1 =
      Response.json 201 (RespBody.item ⟨4, "A", "B", "1", "T", "C"⟩) :=
  (C6_amended_client_id [⟨3, "X", "Y", "0", "S", "Z"⟩] ⟨0, "A", "B", "1", "", "C"⟩ "T"
    (by decide) (by decide) (by decide) (by decide)).2 rfl

/-- Claim C7: Delete is idempotent at the interface: any well-formed
identifier is acknowledged with 200 "success" whatever the store contains
(no existence check), a second Delete of the same identifier is acknowledged
again, and after the first Delete a Get-One of that identifier fails with the
fetch-error (not-found) response. -/
theorem C7_delete_idempotent (store : Store) (id : String) (oid : Nat)
    (hid : ObjectIDFromHex id = some oid)
    (hnodup : (store.map Item.id).Nodup) :
    deleteTodo store id = (Response.json 200 (RespBody.msg "success"), deleteOne store oid) ∧
    (deleteTodo (deleteOne store oid) id).1 = Response.json 200 (RespBody.msg "success") ∧
    (getItem (deleteOne store oid) id).1 =
      Response.json 500 (RespBody.errMsg "Error fetching item") := by
  refine ⟨?_, ?_, ?_⟩
  · simp [deleteTodo, hid]
  · simp [deleteTodo, hid]
  · simp [getItem, hid, findOne_deleteOne store oid hnodup]

theorem C7_witness :
    deleteTodo [⟨1, "A", "B", "1", "T", "C"⟩] "000000000000000000000001" =
      (Response.json 200 (RespBody.msg "success"), []) ∧
    (deleteTodo [] "000000000000000000000001").1 = Response.json 200 (RespBody.msg "success") ∧
    (getItem [] "000000000000000000000001").1 =
      Response.json 500 (RespBody.errMsg "Error fetching item") :=
  C7_delete_idempotent [⟨1, "A", "B", "1", "T", "C"⟩] "000000000000000000000001" 1
    (by decide) (by decide)

/-- Claim C8: a creation payload with every required field non-empty (and no
client identifier: the struct's zero `ObjectID`) is stamped with the creation
timestamp, appended to the store, and answered with 201 carrying the
store-assigned identifier, which no stored document previously used. -/
theorem C8_create_success (store : Store) (item : Item) (now : String)
    (hzero : item.id = 0) (ht : item.title ≠ "") (hd : item.description ≠ "")
    (hp : item.price ≠ "") (hc : item.category ≠ "") :
    createItem store (some item) now =
      (Response.json 201 (RespBody.item { item with createdAt := now, id := freshId store }),
        store ++ [{ item with createdAt := now, id := freshId store }]) ∧
    freshId store ∉ store.map Item.id ∧ freshId store ≠ 0 := by
  refine ⟨?_, freshId_not_mem store, freshId_ne_zero store⟩
  simp [createItem, insertOne, ht, hd, hp, hc, hzero]

theorem C8_witness :
    createItem [⟨2, "X", "Y", "1", "S", "Z"⟩] (some ⟨0, "A", "B", "1", "", "C"⟩) "T" =
      (Response.json 201 (RespBody.item ⟨3, "A", "B", "1", "T", "C"⟩),
        [⟨2, "X", "Y", "1", "S", "Z"⟩, ⟨3, "A", "B", "1", "T", "C"⟩]) ∧
    (3 : Nat) ∉ [(2 : Nat)] ∧ (3 : Nat) ≠ 0 :=
  C8_create_success [⟨2, "X", "Y", "1", "S", "Z"⟩] ⟨0, "A", "B", "1", "", "C"⟩ "T"
    rfl (by decide) (by decide) (by decide) (by decide)

/-- Claim C9: a Partial-Update of an existing document whose body has no
non-empty updatable field is rejected with 400 and the store is left
untouched (no update command is issued). -/
theorem C9_empty_update_body (store : Store) (id : String) (oid : Nat)
    (item0 newItem : Item)
    (hid : ObjectIDFromHex id = some oid)
    (hfind : findOne store oid = some item0)
    (ht : newItem.title = "") (hd : newItem.description = "") (hp : newItem.price = "")
    (hc : newItem.category = "") :
    updateItem store id (some newItem) =
      (Response.json 400 (RespBody.errMsg "Title, Description, Price or Category is required"),
        store) := by
  simp [updateItem, hid, hfind, ht, hd, hp, hc]

theorem C9_witness :
    updateItem [⟨1, "A", "B", "1", "T0", "C"⟩] "000000000000000000000001"
        (some ⟨0, "", "", "", "", ""⟩) =
      (Response.json 400 (RespBody.errMsg "Title, Description, Price or Category is required"),
        [⟨1, "A", "B", "1", "T0", "C"⟩]) :=
  C9_empty_update_body [⟨1, "A", "B", "1", "T0", "C"⟩] "000000000000000000000001" 1
    ⟨1, "A", "B", "1", "T0", "C"⟩ ⟨0, "", "", "", "", ""⟩
    (by decide) (by decide) rfl rfl rfl rfl

/-- Claim C10: in Partial-Update the existence fetch strictly precedes the
empty-body validation: for a well-formed identifier with no stored document,
the 500 fetch-error response is returned for every deserialized body — in
particular for the all-empty body, whose 400 rejection is never reached. -/
theorem C10_fetch_precedes_empty_check (store : Store) (id : String) (oid : Nat)
    (newItem : Item)
    (hid : ObjectIDFromHex id = some oid)
    (hfind : findOne store oid = none) :
    updateItem store id (some newItem) =
      (Response.json 500 (RespBody.errMsg "Error fetching item"), store) := by
  simp [updateItem, hid, hfind]

theorem C10_witness :
    updateItem [] "000000000000000000000001" (some ⟨0, "", "", "", "", ""⟩) =
      (Response.json 500 (RespBody.errMsg "Error fetching item"), []) :=
  C10_fetch_precedes_empty_check [] "000000000000000000000001" 1 ⟨0, "", "", "", "", ""⟩
    (by decide) rfl

end GoRestApi
